import Mathlib

/-!
Verification of the listings API core (query builder / record validator)
against its natural-language specification.

The development shallowly embeds the Python source:

* `parse_last_review` embeds the pydantic validator of the same name
  (tolerant date parsing with the `strptime` formats `%Y-%m-%d` and
  `%m/%d/%Y` and the `0000-00-00` sentinel);
* `read_listings` embeds the GET /listings pipeline (truthiness-guarded
  filters, `ILIKE` search, reflective sort-field resolution with a
  `price` fallback, offset/limit pagination), and
  `read_listings_handler` adds the error path of the reflective lookup:
  a `sort_by` naming a non-column class attribute raises
  `AttributeError`, surfaced as the generic 500;
* `validateListing` / `post_listing` embed the POST /listings path
  (pydantic field requirements, insertion with store-assigned id).
-/

/-! ## Calendar dates (embedding of `datetime.date`) -/

/-- A calendar date as carried by `datetime.date`: year, month, day. -/
structure Date where
  year : Nat
  month : Nat
  day : Nat
deriving DecidableEq, Repr

/-- Gregorian leap-year rule used by `datetime` / `calendar`. -/
def isLeap (y : Nat) : Bool :=
  decide (y % 4 = 0 ∧ (y % 100 ≠ 0 ∨ y % 400 = 0))

/-- Number of days in a month, as validated by `datetime.date`. -/
def daysInMonth (y m : Nat) : Nat :=
  if m = 2 then (if isLeap y then 29 else 28)
  else if m = 4 ∨ m = 6 ∨ m = 9 ∨ m = 11 then 30
  else 31

/-- The invariant `datetime.date` enforces on construction
(`MINYEAR = 1`, `MAXYEAR = 9999`, day in range for the month). -/
def Date.Valid (d : Date) : Prop :=
  1 ≤ d.year ∧ d.year ≤ 9999 ∧ 1 ≤ d.month ∧ d.month ≤ 12 ∧
    1 ≤ d.day ∧ d.day ≤ daysInMonth d.year d.month

instance (d : Date) : Decidable d.Valid := by
  unfold Date.Valid; infer_instance

/-- `datetime.date(y, m, d)`: returns the date when the components are
valid, otherwise raises `ValueError` (modelled as `none`). -/
def mkValidDate (y m d : Nat) : Option Date :=
  if 1 ≤ y ∧ y ≤ 9999 ∧ 1 ≤ m ∧ m ≤ 12 ∧ 1 ≤ d ∧ d ≤ daysInMonth y m then
    some ⟨y, m, d⟩
  else none

/-! ## `strptime` with the two accepted formats

CPython's `_strptime` compiles `%Y` to the regex `\d\d\d\d`, `%m` to
`1[0-2]|0[1-9]|[1-9]` and `%d` to `3[01]|[12]\d|0[1-9]|[1-9]`, matches the
whole input from the start, raises if unconverted data remains, and then
builds a `datetime` (which re-validates the components).  `\d` matches
any Unicode decimal digit (general category Nd) and the captured text is
converted with `int()`, which reads such digits positionally; the
bracketed classes (`[12]`, `[01]`, `[0-2]`, `[1-9]`) are ASCII-literal.
For these three token classes the regex engine never needs to backtrack
into an alternation that succeeded (a shorter alternative is always
followed by a digit where the format expects a separator or the end), so
the leftmost alternation choice below is exact. -/

/-- First codepoints (DIGIT ZERO) of the Unicode decimal-digit ranges,
category Nd (Unicode 15.0): each range holds the ten consecutive digits
0–9.  This is the character class CPython's `\d` matches and `int()`
converts. -/
def unicodeDigitZeros : List Nat :=
  [0x30, 0x660, 0x6F0, 0x7C0, 0x966, 0x9E6, 0xA66, 0xAE6, 0xB66, 0xBE6,
   0xC66, 0xCE6, 0xD66, 0xDE6, 0xE50, 0xED0, 0xF20, 0x1040, 0x1090,
   0x17E0, 0x1810, 0x1946, 0x19D0, 0x1A80, 0x1A90, 0x1B50, 0x1BB0,
   0x1C40, 0x1C50, 0xA620, 0xA8D0, 0xA900, 0xA9D0, 0xA9F0, 0xAA50,
   0xABF0, 0xFF10, 0x104A0, 0x10D30, 0x11066, 0x110F0, 0x11136, 0x111D0,
   0x112F0, 0x11450, 0x114D0, 0x11650, 0x116C0, 0x11730, 0x118E0,
   0x11950, 0x11C50, 0x11D50, 0x11DA0, 0x11F50, 0x16A60, 0x16AC0,
   0x16B50, 0x1D7CE, 0x1D7D8, 0x1D7E2, 0x1D7EC, 0x1D7F6, 0x1E140,
   0x1E2F0, 0x1E4F0, 0x1E950, 0x1FBF0]

/-- Decimal value of a character within the given digit ranges. -/
def digitValIn : List Nat → Char → Option Nat
  | [], _ => none
  | b :: rest, c =>
    if b ≤ c.toNat ∧ c.toNat < b + 10 then some (c.toNat - b)
    else digitValIn rest c

/-- The digit class of CPython's `\d` together with its `int()` value:
`some v` when `c` is a Unicode decimal digit of value `v`. -/
def strptimeDigit (c : Char) : Option Nat := digitValIn unicodeDigitZeros c

/-- Numeric value of an ASCII decimal digit character (used for the
ASCII-literal bracket classes of the compiled formats). -/
def dval (c : Char) : Nat := c.toNat - 48

/-- Regex token `1[0-2]|0[1-9]|[1-9]` for `%m`: month number and
remaining input, `none` if no alternative matches at the front. -/
def parseMonthTok : List Char → Option (Nat × List Char)
  | '1' :: c :: rest =>
    if '0' ≤ c ∧ c ≤ '2' then some (10 + dval c, rest) else some (1, c :: rest)
  | '0' :: c :: rest =>
    if '1' ≤ c ∧ c ≤ '9' then some (dval c, rest) else none
  | c :: rest =>
    if '1' ≤ c ∧ c ≤ '9' then some (dval c, rest) else none
  | [] => none

/-- Regex token `3[01]|[12]\d|0[1-9]|[1-9]` for `%d`: day number and
remaining input.  Only the `\d` position accepts Unicode digits; the
bracket classes are ASCII. -/
def parseDayTok : List Char → Option (Nat × List Char)
  | '3' :: c :: rest =>
    if c = '0' ∨ c = '1' then some (30 + dval c, rest) else some (3, c :: rest)
  | '1' :: c :: rest =>
    match strptimeDigit c with
    | some v => some (10 + v, rest)
    | none => some (1, c :: rest)
  | '2' :: c :: rest =>
    match strptimeDigit c with
    | some v => some (20 + v, rest)
    | none => some (2, c :: rest)
  | '0' :: c :: rest =>
    if '1' ≤ c ∧ c ≤ '9' then some (dval c, rest) else none
  | c :: rest =>
    if '1' ≤ c ∧ c ≤ '9' then some (dval c, rest) else none
  | [] => none

/-- Regex token `\d\d\d\d` for `%Y`: four-digit year (any Unicode
decimal digits, as `\d` matches) and remaining input. -/
def parseYearTok : List Char → Option (Nat × List Char)
  | a :: b :: c :: d :: rest =>
    match strptimeDigit a, strptimeDigit b, strptimeDigit c,
        strptimeDigit d with
    | some va, some vb, some vc, some vd =>
      some (va * 1000 + vb * 100 + vc * 10 + vd, rest)
    | _, _, _, _ => none
  | _ => none

/-- `datetime.datetime.strptime(s, "%Y-%m-%d").date()`, `none` on
`ValueError` (regex mismatch, trailing input, or invalid date). -/
def parseYMD (s : String) : Option Date :=
  match parseYearTok s.data with
  | some (y, '-' :: r1) =>
    match parseMonthTok r1 with
    | some (m, '-' :: r2) =>
      match parseDayTok r2 with
      | some (d, []) => mkValidDate y m d
      | _ => none
    | _ => none
  | _ => none

/-- `datetime.datetime.strptime(s, "%m/%d/%Y").date()`, `none` on
`ValueError`. -/
def parseMDY (s : String) : Option Date :=
  match parseMonthTok s.data with
  | some (m, '/' :: r1) =>
    match parseDayTok r1 with
    | some (d, '/' :: r2) =>
      match parseYearTok r2 with
      | some (y, []) => mkValidDate y m d
      | _ => none
    | _ => none
  | _ => none

/-- The value arriving at the `last_review` validator: JSON null /
missing, a text value, or an already-structured date (orm mode). -/
inductive DateInput
  | none
  | str (s : String)
  | date (d : Date)
deriving DecidableEq

/-- Embedding of the `parse_last_review` validator of `ListingSchema`:

* `if not v or str(v) == '0000-00-00': return None` — absent and empty
  values are falsy; for a structured date, `str(v)` is its zero-padded
  ISO rendering, which equals the sentinel iff all three components are
  zero;
* `if isinstance(v, datetime.date): return v`;
* otherwise try `strptime` with `%Y-%m-%d` then `%m/%d/%Y`;
* if both raise, `raise ValueError(f'Invalid date format: ...')`. -/
def parse_last_review : DateInput → Except String (Option Date)
  | DateInput.none => Except.ok none
  | DateInput.date d =>
    if d.year = 0 ∧ d.month = 0 ∧ d.day = 0 then Except.ok none
    else Except.ok (some d)
  | DateInput.str s =>
    if s = "" ∨ s = "0000-00-00" then Except.ok none
    else
      match parseYMD s with
      | some d => Except.ok (some d)
      | Option.none =>
        match parseMDY s with
        | some d => Except.ok (some d)
        | Option.none => Except.error ("Invalid date format: " ++ s)

example : parseYMD "2023-03-15" = some ⟨2023, 3, 15⟩ := by decide
example : parseMDY "03/15/2023" = some ⟨2023, 3, 15⟩ := by decide
example : parseYMD "2023-3-5" = some ⟨2023, 3, 5⟩ := by decide
example : parseYMD "2023-02-30" = none := by decide
example : parseYMD "not-a-date" = none := by decide
example : parseMDY "not-a-date" = none := by decide
example : parseYMD "٢٠٢٣-01-01" = some ⟨2023, 1, 1⟩ := by decide
example : parseYMD "2023-01-1١" = some ⟨2023, 1, 11⟩ := by decide
example : parse_last_review (DateInput.str ("٢٠٢٣-01-01"))
    = Except.ok (some ⟨2023, 1, 1⟩) := rfl
example : parse_last_review (DateInput.str ("not-a-date"))
    = Except.error ("Invalid date format: not-a-date") := rfl

/-! ## Data model

`ListingRecord` mirrors the `listings` row / `ListingSchema`: `id`,
`name`, `host_id`, `host_name` are non-nullable, everything else is
optional.  Python floats / SQL numerics are modelled as rationals. -/

/-- A stored listing row (`Listing` model / validated `ListingSchema`). -/
structure ListingRecord where
  id : Int
  name : String
  host_id : Int
  host_name : String
  neighbourhood_group : Option String
  neighbourhood : Option String
  latitude : Option Rat
  longitude : Option Rat
  room_type : Option String
  price : Option Rat
  minimum_nights : Option Int
  number_of_reviews : Option Int
  last_review : Option Date
  reviews_per_month : Option Rat
  calculated_host_listings_count : Option Int
  availability_365 : Option Int
  number_of_reviews_ltm : Option Int
  license : Option String
deriving DecidableEq

/-- The JSON body of POST /listings as it reaches pydantic: every field
may be absent; `last_review` may be text, a structured date, or null. -/
structure RawListing where
  id : Option Int
  name : Option String
  host_id : Option Int
  host_name : Option String
  neighbourhood_group : Option String
  neighbourhood : Option String
  latitude : Option Rat
  longitude : Option Rat
  room_type : Option String
  price : Option Rat
  minimum_nights : Option Int
  number_of_reviews : Option Int
  last_review : DateInput
  reviews_per_month : Option Rat
  calculated_host_listings_count : Option Int
  availability_365 : Option Int
  number_of_reviews_ltm : Option Int
  license : Option String
deriving DecidableEq

/-- Error list for one required pydantic field (pydantic v1 reports
`field required` for a missing non-optional field). -/
def requiredErr (fname : String) (present : Bool) : List String :=
  if present then [] else [fname ++ ": field required"]

/-- The per-field validation errors pydantic v1 collects for a
`ListingSchema` body, in field declaration order.  `id`, `name`,
`host_id` and `host_name` are the non-optional fields; the optional
fields default to `None` and cannot fail; `last_review` runs the
`parse_last_review` validator. -/
def validationErrors (raw : RawListing) : List String :=
  requiredErr ("id") raw.id.isSome ++
  requiredErr ("name") raw.name.isSome ++
  requiredErr ("host_id") raw.host_id.isSome ++
  requiredErr ("host_name") raw.host_name.isSome ++
  (match parse_last_review raw.last_review with
   | Except.ok _ => []
   | Except.error e => ["last_review: " ++ e])

/-- The validated record built from a body that produced no errors
(the `getD` defaults are never observable: the field is present). -/
def buildRecord (raw : RawListing) : ListingRecord :=
  { id := raw.id.getD 0
    name := raw.name.getD ""
    host_id := raw.host_id.getD 0
    host_name := raw.host_name.getD ""
    neighbourhood_group := raw.neighbourhood_group
    neighbourhood := raw.neighbourhood
    latitude := raw.latitude
    longitude := raw.longitude
    room_type := raw.room_type
    price := raw.price
    minimum_nights := raw.minimum_nights
    number_of_reviews := raw.number_of_reviews
    last_review :=
      (match parse_last_review raw.last_review with
       | Except.ok d => d
       | Except.error _ => none)
    reviews_per_month := raw.reviews_per_month
    calculated_host_listings_count := raw.calculated_host_listings_count
    availability_365 := raw.availability_365
    number_of_reviews_ltm := raw.number_of_reviews_ltm
    license := raw.license }

/-- Pydantic validation of the request body: the structured errors give
a 400 response, otherwise the handler receives the parsed schema. -/
def validateListing (raw : RawListing) : Except (List String) ListingRecord :=
  if validationErrors raw = [] then Except.ok (buildRecord raw)
  else Except.error (validationErrors raw)

/-- Modelled from the spec: the Listing Store collaborator (the MySQL
`listings` table, not part of the repository source).  Its contract is
`insert(record_without_id) -> ListingRecord` assigning a fresh unique
auto-increment `id`; `nextId` is the auto-increment counter. -/
structure Store where
  records : List ListingRecord
  nextId : Int
deriving DecidableEq

/-- Modelled from the spec: `insert` appends the record with the
store-assigned id and returns the stored row (what `db.add` +
`db.commit` + `db.refresh(new)` observe). -/
def Store.insert (st : Store) (r : ListingRecord) : Store × ListingRecord :=
  let stored := { r with id := st.nextId }
  ({ records := st.records ++ [stored], nextId := st.nextId + 1 }, stored)

/-- Outcome of POST /listings at the HTTP boundary. -/
inductive PostResult
  | created (body : ListingRecord)
  | badRequest (errors : List String)
deriving DecidableEq

/-- Embedding of the POST /listings path: body validation at the
FastAPI boundary (failure → 400 and no store interaction), then
`create_listing`, which drops the client `id` (`exclude={"id"}`) and
inserts, returning the stored row with status 201. -/
def post_listing (st : Store) (raw : RawListing) : PostResult × Store :=
  match validateListing raw with
  | Except.error errs => (PostResult.badRequest errs, st)
  | Except.ok rec =>
    let res := st.insert rec
    (PostResult.created res.2, res.1)

/-! ## Lowercasing

`ilike` renders as `lower(col) LIKE lower(pattern)` and the handler
compares `order.lower()`; the inputs exercised are ASCII, where SQL
`LOWER` and Python `str.lower` agree on mapping A–Z to a–z and leaving
every other character unchanged. -/

/-- ASCII lowercasing of one character. -/
def lowerChar : Char → Char
  | 'A' => 'a' | 'B' => 'b' | 'C' => 'c' | 'D' => 'd' | 'E' => 'e'
  | 'F' => 'f' | 'G' => 'g' | 'H' => 'h' | 'I' => 'i' | 'J' => 'j'
  | 'K' => 'k' | 'L' => 'l' | 'M' => 'm' | 'N' => 'n' | 'O' => 'o'
  | 'P' => 'p' | 'Q' => 'q' | 'R' => 'r' | 'S' => 's' | 'T' => 't'
  | 'U' => 'u' | 'V' => 'v' | 'W' => 'w' | 'X' => 'x' | 'Y' => 'y'
  | 'Z' => 'z'
  | c => c

/-- ASCII lowercasing of a string (SQL `LOWER` / Python `str.lower`). -/
def lowerStr (s : String) : String := String.mk (s.data.map lowerChar)

/-! ## SQL `LIKE`

The pattern metacharacters are `%` (any sequence), `_` (any one
character) and the default escape `\` (next pattern character taken
literally); every other pattern character matches itself.  `%` is
handled by trying the rest of the pattern against every suffix of the
input. -/

/-- All suffixes of a character list, longest first. -/
def suffixesList : List Char → List (List Char)
  | [] => [[]]
  | c :: s => (c :: s) :: suffixesList s

/-- SQL `LIKE` pattern matching over characters: `likeMatch p s` is
true iff pattern `p` matches the whole input `s`.  A `%` matches when
the rest of the pattern matches some suffix of the input; a trailing
`\` (no character left to escape) matches a literal backslash via the
final catch-all arm. -/
def likeMatch : List Char → List Char → Bool
  | [], s => s.isEmpty
  | '%' :: ps, s => (suffixesList s).any (fun t => likeMatch ps t)
  | '_' :: ps, s =>
    match s with
    | [] => false
    | _ :: s2 => likeMatch ps s2
  | '\\' :: e :: ps, s =>
    match s with
    | [] => false
    | d :: s2 => d == e && likeMatch ps s2
  | c :: ps, s =>
    match s with
    | [] => false
    | d :: s2 => d == c && likeMatch ps s2

/-- `col.ilike(pattern)` on MySQL: case-insensitive `LIKE`, i.e.
`LOWER(value) LIKE LOWER(pattern)`. -/
def ilike (v pat : String) : Bool :=
  likeMatch (lowerStr pat).data (lowerStr v).data

/-- The search disjunction of the handler:
`Listing.name.ilike(f"%{search}%") | Listing.neighbourhood.ilike(...)`.
A NULL `neighbourhood` makes its disjunct SQL-NULL, so the row is
selected iff the name matches. -/
def searchPred (s : String) (r : ListingRecord) : Bool :=
  ilike r.name ("%" ++ s ++ "%") ||
    (match r.neighbourhood with
     | some nb => ilike nb ("%" ++ s ++ "%")
     | none => false)

/-! ## The three conditional filters (truthiness-guarded as in the
handler: `if neighbourhood:` / `if price_lte is not None:` /
`if search:`). -/

/-- `if neighbourhood: stmt.where(Listing.neighbourhood == neighbourhood)`;
SQL `=` against a NULL column is NULL, so NULL rows are excluded. -/
def applyNeighbourhood (nb : Option String) (db : List ListingRecord) :
    List ListingRecord :=
  match nb with
  | some n =>
    if n = "" then db
    else db.filter (fun r => decide (r.neighbourhood = some n))
  | none => db

/-- `if price_lte is not None: stmt.where(Listing.price <= price_lte)`;
NULL prices compare to NULL and are excluded. -/
def applyPrice (pl : Option Rat) (db : List ListingRecord) :
    List ListingRecord :=
  match pl with
  | some b =>
    db.filter (fun r =>
      match r.price with
      | some pr => decide (pr ≤ b)
      | none => false)
  | none => db

/-- `if search: stmt.where(name.ilike(...) | neighbourhood.ilike(...))`. -/
def applySearch (s : Option String) (db : List ListingRecord) :
    List ListingRecord :=
  match s with
  | some q => if q = "" then db else db.filter (searchPred q)
  | none => db

/-! ## Sorting -/

/-- The columns of the `Listing` model, i.e. the names `getattr` can
resolve to a sortable field. -/
inductive SortField
  | id | name | host_id | host_name | neighbourhood_group | neighbourhood
  | latitude | longitude | room_type | price | minimum_nights
  | number_of_reviews | last_review | reviews_per_month
  | calculated_host_listings_count | availability_365
  | number_of_reviews_ltm | license
deriving DecidableEq

/-- The field names of the record, in declaration order. -/
def knownFields : List String :=
  ["id", "name", "host_id", "host_name", "neighbourhood_group",
   "neighbourhood", "latitude", "longitude", "room_type", "price",
   "minimum_nights", "number_of_reviews", "last_review",
   "reviews_per_month", "calculated_host_listings_count",
   "availability_365", "number_of_reviews_ltm", "license"]

/-- Resolution of `sort_by` among the mapped columns, with the
`getattr(Listing, sort_by, Listing.price)` default for names that are
no attribute of the class at all.  Names that `getattr` resolves to a
non-column class attribute never yield an ordering column — that error
path is modelled in `classAttr` / `read_listings_handler`, and this
function is only consulted when resolution does not error. -/
def resolveSortBy (s : String) : SortField :=
  if s = "id" then SortField.id
  else if s = "name" then SortField.name
  else if s = "host_id" then SortField.host_id
  else if s = "host_name" then SortField.host_name
  else if s = "neighbourhood_group" then SortField.neighbourhood_group
  else if s = "neighbourhood" then SortField.neighbourhood
  else if s = "latitude" then SortField.latitude
  else if s = "longitude" then SortField.longitude
  else if s = "room_type" then SortField.room_type
  else if s = "price" then SortField.price
  else if s = "minimum_nights" then SortField.minimum_nights
  else if s = "number_of_reviews" then SortField.number_of_reviews
  else if s = "last_review" then SortField.last_review
  else if s = "reviews_per_month" then SortField.reviews_per_month
  else if s = "calculated_host_listings_count" then
    SortField.calculated_host_listings_count
  else if s = "availability_365" then SortField.availability_365
  else if s = "number_of_reviews_ltm" then SortField.number_of_reviews_ltm
  else if s = "license" then SortField.license
  else SortField.price

/-- Ascending comparison of optional values, NULLs first (MySQL `ASC`). -/
def optLe {α : Type} (le : α → α → Bool) : Option α → Option α → Bool
  | none, _ => true
  | some _, none => false
  | some a, some b => le a b

/-- Rational (numeric / float column) comparison. -/
def ratLe (a b : Rat) : Bool := decide (a ≤ b)

/-- Integer column comparison. -/
def intLe (a b : Int) : Bool := decide (a ≤ b)

/-- Text column comparison under the case-insensitive collation. -/
def strLeCi (a b : String) : Bool := decide (lowerStr a ≤ lowerStr b)

/-- Date column comparison (chronological). -/
def dateLe (a b : Date) : Bool :=
  decide (a.year < b.year ∨ (a.year = b.year ∧
    (a.month < b.month ∨ (a.month = b.month ∧ a.day ≤ b.day))))

/-- `ORDER BY col ASC` row comparison for each sortable column. -/
def fieldLe (f : SortField) (a b : ListingRecord) : Bool :=
  match f with
  | SortField.id => intLe a.id b.id
  | SortField.name => strLeCi a.name b.name
  | SortField.host_id => intLe a.host_id b.host_id
  | SortField.host_name => strLeCi a.host_name b.host_name
  | SortField.neighbourhood_group =>
    optLe strLeCi a.neighbourhood_group b.neighbourhood_group
  | SortField.neighbourhood => optLe strLeCi a.neighbourhood b.neighbourhood
  | SortField.latitude => optLe ratLe a.latitude b.latitude
  | SortField.longitude => optLe ratLe a.longitude b.longitude
  | SortField.room_type => optLe strLeCi a.room_type b.room_type
  | SortField.price => optLe ratLe a.price b.price
  | SortField.minimum_nights => optLe intLe a.minimum_nights b.minimum_nights
  | SortField.number_of_reviews =>
    optLe intLe a.number_of_reviews b.number_of_reviews
  | SortField.last_review => optLe dateLe a.last_review b.last_review
  | SortField.reviews_per_month =>
    optLe ratLe a.reviews_per_month b.reviews_per_month
  | SortField.calculated_host_listings_count =>
    optLe intLe a.calculated_host_listings_count b.calculated_host_listings_count
  | SortField.availability_365 =>
    optLe intLe a.availability_365 b.availability_365
  | SortField.number_of_reviews_ltm =>
    optLe intLe a.number_of_reviews_ltm b.number_of_reviews_ltm
  | SortField.license => optLe strLeCi a.license b.license

/-- Insert into a sorted list (stable: equal keys keep earlier elements
first). -/
def insertSorted {α : Type} (le : α → α → Bool) (a : α) : List α → List α
  | [] => [a]
  | b :: l => if le a b then a :: b :: l else b :: insertSorted le a l

/-- Deterministic model of the row order the store returns for
`ORDER BY`: insertion sort under the given comparison. -/
def sortRecords {α : Type} (le : α → α → Bool) : List α → List α
  | [] => []
  | a :: l => insertSorted le a (sortRecords le l)

/-- `order_by(col.desc() if order.lower() == "desc" else col.asc())`. -/
def orderRecords (f : SortField) (ord : String) (db : List ListingRecord) :
    List ListingRecord :=
  if lowerStr ord = "desc" then sortRecords (fun a b => fieldLe f b a) db
  else sortRecords (fun a b => fieldLe f a b) db

/-! ## GET /listings -/

/-- The query parameters of GET /listings after FastAPI validation
(`page ≥ 1`, `1 ≤ limit ≤ 100` are enforced at the boundary). -/
structure QueryParams where
  page : Nat
  limit : Nat
  neighbourhood : Option String
  price_lte : Option Rat
  search : Option String
  sort_by : String
  order : String
deriving DecidableEq

/-- Embedding of the `read_listings` handler: conjunctive filters in
source order, reflective sort with `price` fallback, then
`offset((page - 1) * limit).limit(limit)`. -/
def read_listings (db : List ListingRecord) (p : QueryParams) :
    List ListingRecord :=
  ((orderRecords (resolveSortBy p.sort_by) p.order
      (applySearch p.search
        (applyPrice p.price_lte
          (applyNeighbourhood p.neighbourhood db)))).drop
    ((p.page - 1) * p.limit)).take p.limit

/-- GET /listings at the store boundary: a SELECT leaves the store
unchanged (Listing Store contract: `query` has no side effect). -/
def read_listings_endpoint (st : Store) (p : QueryParams) :
    List ListingRecord × Store :=
  (read_listings st.records p, st)

/-- Outcome of `getattr(Listing, sort_by, Listing.price)`: the name is
a mapped column, some other attribute of the class, or no attribute at
all (so the `getattr` default — the price column — applies). -/
inductive AttrLookup
  | column (f : SortField)
  | nonColumn
  | absent
deriving DecidableEq

/-- Attribute lookup on the `Listing` declarative class.  Besides the
mapped columns, the class carries Python/SQLAlchemy machinery
(`metadata`, `registry`, `__tablename__`, `__init__`, ...) whose
exact, interpreter-dependent enumeration is outside the source, so the
set of those non-column attribute names is a parameter of the model. -/
def classAttr (nonColumnAttrs : List String) (s : String) : AttrLookup :=
  if s ∈ knownFields then AttrLookup.column (resolveSortBy s)
  else if s ∈ nonColumnAttrs then AttrLookup.nonColumn
  else AttrLookup.absent

/-- GET /listings at the HTTP boundary: when `sort_by` names a
non-column class attribute, `col.asc()` / `col.desc()` raises
`AttributeError`, which the global `Exception` handler converts to the
generic 500 body; otherwise the handler answers with the pipeline
result. -/
def read_listings_handler (nonColumnAttrs : List String)
    (db : List ListingRecord) (p : QueryParams) :
    Except String (List ListingRecord) :=
  match classAttr nonColumnAttrs p.sort_by with
  | AttrLookup.nonColumn => Except.error "Internal Server Error"
  | AttrLookup.column _ => Except.ok (read_listings db p)
  | AttrLookup.absent => Except.ok (read_listings db p)

/-- A concrete selection of non-column attribute names that `getattr`
resolves on the `Listing` declarative class. -/
def listingNonColumnAttrs : List String :=
  ["metadata", "registry", "__tablename__", "__table__", "__mapper__",
   "__init__", "__dict__", "__doc__", "__module__", "__weakref__"]

/-! ## Spec-side formulations

These definitions follow the specification's words, to be compared with
the handler pipeline: the conjunctive pass predicate for C5, and plain
case-insensitive substring containment for C6. -/

/-- Pass condition of the neighbourhood filter when present. -/
def nbPass (nb : Option String) (r : ListingRecord) : Bool :=
  match nb with
  | some n => if n = "" then true else decide (r.neighbourhood = some n)
  | none => true

/-- Pass condition of the price upper-bound filter when present. -/
def prPass (pl : Option Rat) (r : ListingRecord) : Bool :=
  match pl with
  | some b =>
    match r.price with
    | some pr => decide (pr ≤ b)
    | none => false
  | none => true

/-- Pass condition of the search filter when present. -/
def srPass (s : Option String) (r : ListingRecord) : Bool :=
  match s with
  | some q => if q = "" then true else searchPred q r
  | none => true

/-- Conjunction of the three filters, as the spec describes them. -/
def passesFilters (p : QueryParams) (r : ListingRecord) : Bool :=
  nbPass p.neighbourhood r && (prPass p.price_lte r && srPass p.search r)

/-- The filtered and ordered dataset before pagination. -/
def processedListings (db : List ListingRecord) (p : QueryParams) :
    List ListingRecord :=
  orderRecords (resolveSortBy p.sort_by) p.order (db.filter (passesFilters p))

/-- `t` occurs at the front of `h`. -/
def isPrefChars : List Char → List Char → Bool
  | [], _ => true
  | _ :: _, [] => false
  | c :: t, d :: h => d == c && isPrefChars t h

/-- Case-insensitive unanchored substring containment — the relation
the spec claims the search filter implements: the lowered needle
occurs at the front of some suffix of the lowered haystack. -/
def containsCi (hay needle : String) : Bool :=
  (suffixesList (lowerStr hay).data).any
    (fun t => isPrefChars (lowerStr needle).data t)

/-- A text with none of the `LIKE` metacharacters `%`, `_`, `\`. -/
def wildcardFree (s : String) : Prop :=
  ∀ c ∈ s.data, c ≠ '%' ∧ c ≠ '_' ∧ c ≠ '\\'

instance (s : String) : Decidable (wildcardFree s) := by
  unfold wildcardFree; infer_instance

example : containsCi "Historic Center flat" "historic" = true := by decide
example : containsCi "abc" "%" = false := by decide
example : ilike "abc" ("%" ++ "%" ++ "%") = true := by decide
example : ilike "Historic Center" ("%" ++ "historic" ++ "%") = true := by decide
example : ilike "plain" ("%" ++ "historic" ++ "%") = false := by decide

/-! ## Helper lemmas about the order model -/

theorem length_insertSorted {α : Type} (le : α → α → Bool) (a : α) :
    ∀ l : List α, (insertSorted le a l).length = l.length + 1
  | [] => rfl
  | b :: l => by
    simp only [insertSorted]
    split
    · rfl
    · simp [length_insertSorted le a l]

theorem mem_insertSorted {α : Type} (le : α → α → Bool) (a x : α) :
    ∀ l : List α, (x ∈ insertSorted le a l ↔ x = a ∨ x ∈ l)
  | [] => by simp [insertSorted]
  | b :: l => by
    simp only [insertSorted]
    split
    · simp
    · simp only [List.mem_cons, mem_insertSorted le a x l]
      tauto

theorem length_sortRecords {α : Type} (le : α → α → Bool) :
    ∀ l : List α, (sortRecords le l).length = l.length
  | [] => rfl
  | a :: l => by
    simp [sortRecords, length_insertSorted, length_sortRecords le l]

theorem mem_sortRecords {α : Type} (le : α → α → Bool) (x : α) :
    ∀ l : List α, (x ∈ sortRecords le l ↔ x ∈ l)
  | [] => Iff.rfl
  | a :: l => by
    simp [sortRecords, mem_insertSorted, mem_sortRecords le x l]

theorem mem_orderRecords (f : SortField) (ord : String) (x : ListingRecord)
    (l : List ListingRecord) : x ∈ orderRecords f ord l ↔ x ∈ l := by
  unfold orderRecords
  split <;> exact mem_sortRecords _ x l

theorem length_orderRecords (f : SortField) (ord : String)
    (l : List ListingRecord) : (orderRecords f ord l).length = l.length := by
  unfold orderRecords
  split <;> exact length_sortRecords _ l

/-! ## C10 — empty-string parameters apply no filter -/

/-- C10: supplying the empty string for `neighbourhood` or `search`
yields exactly the result of the same request with the parameter
absent, because the handler guards each filter with Python truthiness
(`if neighbourhood:` / `if search:`), which is false for `""`. -/
theorem empty_string_params_unfiltered (db : List ListingRecord)
    (p : QueryParams) :
    read_listings db { p with neighbourhood := some "" }
        = read_listings db { p with neighbourhood := none }
      ∧ read_listings db { p with search := some "" }
        = read_listings db { p with search := none } := by
  constructor <;> rfl

/-! ## C1 — unknown sort_by falls back to price -/

theorem resolveSortBy_of_not_known (s : String) (h : s ∉ knownFields) :
    resolveSortBy s = SortField.price := by
  have h1 : ¬ s = "id" := fun hs => h (by rw [hs]; decide)
  have h2 : ¬ s = "name" := fun hs => h (by rw [hs]; decide)
  have h3 : ¬ s = "host_id" := fun hs => h (by rw [hs]; decide)
  have h4 : ¬ s = "host_name" := fun hs => h (by rw [hs]; decide)
  have h5 : ¬ s = "neighbourhood_group" := fun hs => h (by rw [hs]; decide)
  have h6 : ¬ s = "neighbourhood" := fun hs => h (by rw [hs]; decide)
  have h7 : ¬ s = "latitude" := fun hs => h (by rw [hs]; decide)
  have h8 : ¬ s = "longitude" := fun hs => h (by rw [hs]; decide)
  have h9 : ¬ s = "room_type" := fun hs => h (by rw [hs]; decide)
  have h10 : ¬ s = "price" := fun hs => h (by rw [hs]; decide)
  have h11 : ¬ s = "minimum_nights" := fun hs => h (by rw [hs]; decide)
  have h12 : ¬ s = "number_of_reviews" := fun hs => h (by rw [hs]; decide)
  have h13 : ¬ s = "last_review" := fun hs => h (by rw [hs]; decide)
  have h14 : ¬ s = "reviews_per_month" := fun hs => h (by rw [hs]; decide)
  have h15 : ¬ s = "calculated_host_listings_count" :=
    fun hs => h (by rw [hs]; decide)
  have h16 : ¬ s = "availability_365" := fun hs => h (by rw [hs]; decide)
  have h17 : ¬ s = "number_of_reviews_ltm" := fun hs => h (by rw [hs]; decide)
  have h18 : ¬ s = "license" := fun hs => h (by rw [hs]; decide)
  unfold resolveSortBy
  simp only [if_neg h1, if_neg h2, if_neg h3, if_neg h4, if_neg h5, if_neg h6,
    if_neg h7, if_neg h8, if_neg h9, if_neg h10, if_neg h11, if_neg h12,
    if_neg h13, if_neg h14, if_neg h15, if_neg h16, if_neg h17, if_neg h18]

/-- The pipeline with an unresolvable `sort_by` coincides with the
`sort_by = "price"` pipeline (the `getattr` default). -/
theorem read_listings_sort_fallback (db : List ListingRecord)
    (p : QueryParams) (h : p.sort_by ∉ knownFields) :
    read_listings db p = read_listings db { p with sort_by := "price" } := by
  unfold read_listings
  rw [resolveSortBy_of_not_known p.sort_by h]
  rfl

/-- Request sorting by a name that is no attribute of the class. -/
def fallbackQuery : QueryParams :=
  { page := 1, limit := 20, neighbourhood := none, price_lte := none,
    search := none, sort_by := "nonexistent_field", order := "asc" }

/-- Request sorting by the class's `metadata` attribute, which is not
a field of the record. -/
def metadataQuery : QueryParams :=
  { fallbackQuery with sort_by := "metadata" }

/-- C1 counterexample: `sort_by = "metadata"` does not resolve to a
field of ListingRecord, yet the request errors rather than falling
back to price ordering: `getattr` finds the class's `MetaData` object,
`.asc()` raises `AttributeError`, and the response is the generic 500
— unlike the same request with `sort_by = "price"`. -/
theorem sort_by_metadata_errors :
    "metadata" ∉ knownFields
      ∧ read_listings_handler listingNonColumnAttrs [] metadataQuery
        = Except.error "Internal Server Error"
      ∧ read_listings_handler listingNonColumnAttrs []
          { metadataQuery with sort_by := "price" }
        = Except.ok [] :=
  ⟨by decide, rfl, rfl⟩

/-- C1 amended: a `sort_by` that names neither a record field nor any
other attribute of the model class never errors — the builder falls
back to the price column and the response equals the
`sort_by = "price"` response; but a `sort_by` naming a non-column
class attribute makes the request fail with the generic 500. -/
theorem unknown_sort_by_resolution (attrs : List String)
    (db : List ListingRecord) (p : QueryParams)
    (h : p.sort_by ∉ knownFields) :
    (p.sort_by ∉ attrs →
      read_listings_handler attrs db p
        = Except.ok (read_listings db { p with sort_by := "price" }))
      ∧ (p.sort_by ∈ attrs →
        read_listings_handler attrs db p
          = Except.error "Internal Server Error") := by
  constructor
  · intro ha
    unfold read_listings_handler classAttr
    rw [if_neg h, if_neg ha, read_listings_sort_fallback db p h]
  · intro ha
    unfold read_listings_handler classAttr
    rw [if_neg h, if_pos ha]

/-- Witness for the amended C1: `"nonexistent_field"` falls back to
price ordering, `"metadata"` errors. -/
theorem unknown_sort_by_resolution_witness :
    ("nonexistent_field" ∉ knownFields
      ∧ "nonexistent_field" ∉ listingNonColumnAttrs
      ∧ read_listings_handler listingNonColumnAttrs [] fallbackQuery
        = Except.ok
            (read_listings [] { fallbackQuery with sort_by := "price" }))
      ∧ ("metadata" ∉ knownFields ∧ "metadata" ∈ listingNonColumnAttrs
        ∧ read_listings_handler listingNonColumnAttrs [] metadataQuery
          = Except.error "Internal Server Error") :=
  ⟨⟨by decide, by decide,
    (unknown_sort_by_resolution listingNonColumnAttrs [] fallbackQuery
        (by decide)).1 (by decide)⟩,
   ⟨by decide, by decide,
    (unknown_sort_by_resolution listingNonColumnAttrs [] metadataQuery
        (by decide)).2 (by decide)⟩⟩

/-! ## C9 — operations preserve existing store contents -/

/-- C9: GET /listings leaves the store unchanged, and POST /listings
either leaves it unchanged (validation failure) or appends exactly one
record carrying the store-assigned id; in every case the previously
stored records — all their fields, `id` included — survive unchanged as
a prefix. -/
theorem store_preservation (st : Store) (p : QueryParams) (raw : RawListing) :
    (read_listings_endpoint st p).2 = st
      ∧ ((post_listing st raw).2 = st
         ∨ ∃ stored, (post_listing st raw).2.records = st.records ++ [stored]
             ∧ stored.id = st.nextId
             ∧ (post_listing st raw).1 = PostResult.created stored)
      ∧ (post_listing st raw).2.records.take st.records.length = st.records := by
  refine ⟨rfl, ?_⟩
  cases hv : validateListing raw with
  | error errs =>
    refine ⟨Or.inl ?_, ?_⟩
    · simp [post_listing, hv]
    · simp [post_listing, hv]
  | ok rec =>
    refine ⟨Or.inr ⟨{ rec with id := st.nextId }, ?_, rfl, ?_⟩, ?_⟩
    · simp [post_listing, hv, Store.insert]
    · simp [post_listing, hv, Store.insert]
    · simp [post_listing, hv, Store.insert, List.take_left]

/-! ## C7 — the price upper-bound filter -/

/-- C7: with `price_lte = b`, every returned record has a non-null
price that is at most `b`; null-priced records never appear. -/
theorem price_lte_filter_sound (db : List ListingRecord) (p : QueryParams)
    (b : Rat) (hb : p.price_lte = some b) :
    ∀ r ∈ read_listings db p, ∃ q, r.price = some q ∧ q ≤ b := by
  intro r hr
  unfold read_listings at hr
  have h1 := (mem_orderRecords _ _ _ _).mp
    (List.mem_of_mem_drop (List.mem_of_mem_take hr))
  have h3 : r ∈ applyPrice p.price_lte (applyNeighbourhood p.neighbourhood db) := by
    cases hs : p.search with
    | none => simpa [applySearch, hs] using h1
    | some q =>
      rw [hs] at h1
      simp only [applySearch] at h1
      by_cases hq : q = ""
      · rw [if_pos hq] at h1; exact h1
      · rw [if_neg hq] at h1; exact List.mem_of_mem_filter h1
  rw [hb] at h3
  unfold applyPrice at h3
  have hpred := (List.mem_filter.mp h3).2
  cases hp : r.price with
  | none => rw [hp] at hpred; simp at hpred
  | some q =>
    rw [hp] at hpred
    simp only [decide_eq_true_eq] at hpred
    exact ⟨q, rfl, hpred⟩

/-- A concrete stored record used by the witnesses. -/
def sampleRecord : ListingRecord :=
  { id := 1, name := "Historic Center flat", host_id := 10, host_name := "Ana",
    neighbourhood_group := none, neighbourhood := some "Centro",
    latitude := none, longitude := none, room_type := some "Entire home",
    price := some 50, minimum_nights := some 2, number_of_reviews := some 3,
    last_review := none, reviews_per_month := none,
    calculated_host_listings_count := none, availability_365 := some 100,
    number_of_reviews_ltm := none, license := none }

/-- Concrete query with a price bound, for the C7 witness. -/
def priceQuery : QueryParams :=
  { page := 1, limit := 20, neighbourhood := none, price_lte := some 100,
    search := none, sort_by := "price", order := "asc" }

/-- Witness for C7 at `price_lte = 100` over a one-record dataset. -/
theorem price_lte_filter_sound_witness :
    priceQuery.price_lte = some 100
      ∧ ∀ r ∈ read_listings [sampleRecord] priceQuery,
          ∃ q, r.price = some q ∧ q ≤ 100 :=
  ⟨rfl, price_lte_filter_sound [sampleRecord] priceQuery 100 rfl⟩

/-! ## C5 — conjunctive filters, ordering, offset/limit pagination -/

theorem applyNeighbourhood_eq_filter (nb : Option String)
    (db : List ListingRecord) :
    applyNeighbourhood nb db = db.filter (nbPass nb) := by
  cases nb with
  | none =>
    have h : nbPass none = fun _ : ListingRecord => true := by
      funext r; rfl
    simp [applyNeighbourhood, h]
  | some n =>
    by_cases hn : n = ""
    · have h : nbPass (some n) = fun _ : ListingRecord => true := by
        funext r; simp [nbPass, hn]
      rw [h, List.filter_true]
      simp [applyNeighbourhood, hn]
    · have h : nbPass (some n)
          = fun r : ListingRecord => decide (r.neighbourhood = some n) := by
        funext r; simp [nbPass, hn]
      simp [applyNeighbourhood, hn, h]

theorem applyPrice_eq_filter (pl : Option Rat) (db : List ListingRecord) :
    applyPrice pl db = db.filter (prPass pl) := by
  cases pl with
  | none =>
    have h : prPass none = fun _ : ListingRecord => true := by
      funext r; rfl
    simp [applyPrice, h]
  | some b =>
    have h : prPass (some b)
        = fun r : ListingRecord =>
            match r.price with
            | some pr => decide (pr ≤ b)
            | none => false := by
      funext r; rfl
    simp [applyPrice, h]

theorem applySearch_eq_filter (s : Option String) (db : List ListingRecord) :
    applySearch s db = db.filter (srPass s) := by
  cases s with
  | none =>
    have h : srPass none = fun _ : ListingRecord => true := by
      funext r; rfl
    simp [applySearch, h]
  | some q =>
    by_cases hq : q = ""
    · have h : srPass (some q) = fun _ : ListingRecord => true := by
        funext r; simp [srPass, hq]
      rw [h, List.filter_true]
      simp [applySearch, hq]
    · have h : srPass (some q) = fun r : ListingRecord => searchPred q r := by
        funext r; simp [srPass, hq]
      simp [applySearch, hq, h]

/-- The three truthiness-guarded filter stages of the handler compose
into a single conjunctive pass over the dataset. -/
theorem filters_conj (db : List ListingRecord) (p : QueryParams) :
    applySearch p.search
        (applyPrice p.price_lte (applyNeighbourhood p.neighbourhood db))
      = db.filter (passesFilters p) := by
  rw [applyNeighbourhood_eq_filter, applyPrice_eq_filter,
    applySearch_eq_filter, List.filter_filter, List.filter_filter]
  apply List.filter_congr
  intro a _
  unfold passesFilters
  cases h1 : nbPass p.neighbourhood a <;>
    cases h2 : prPass p.price_lte a <;>
      cases h3 : srPass p.search a <;> rfl

/-- C5 counterexample: a request that is valid per the claim (page 1,
limit 20 ∈ [1,100]) but sorts by the class's `metadata` attribute is
answered with the generic 500, not with the filtered, ordered,
paginated sequence. -/
theorem pagination_valid_request_errors :
    (1 ≤ metadataQuery.page ∧ 1 ≤ metadataQuery.limit
      ∧ metadataQuery.limit ≤ 100)
      ∧ read_listings_handler listingNonColumnAttrs [sampleRecord]
          metadataQuery
        = Except.error "Internal Server Error" :=
  ⟨by decide, rfl⟩

/-- C5 amended: for a validated request whose `sort_by` does not name
a non-column class attribute, GET /listings succeeds and the response
is exactly the conjunctively filtered dataset, ordered by the resolved
field and direction, with `skip = (page-1)*limit` records dropped and
at most `limit` taken; its length is ≤ `limit`, and the pages `page`
and `page+1` together are exactly the offset range
`[(page-1)*limit, (page+1)*limit)` of the processed dataset, so
consecutive pages cover disjoint offset ranges. -/
theorem read_listings_pagination_spec (attrs : List String)
    (db : List ListingRecord)
    (p : QueryParams) (hp : 1 ≤ p.page) (hl1 : 1 ≤ p.limit)
    (hl2 : p.limit ≤ 100) (hs : p.sort_by ∉ attrs) :
    read_listings_handler attrs db p = Except.ok (read_listings db p)
      ∧ read_listings db p
        = ((processedListings db p).drop ((p.page - 1) * p.limit)).take p.limit
      ∧ (read_listings db p).length ≤ p.limit
      ∧ read_listings db p ++ read_listings db { p with page := p.page + 1 }
        = ((processedListings db p).drop
            ((p.page - 1) * p.limit)).take (2 * p.limit) := by
  have hok : read_listings_handler attrs db p
      = Except.ok (read_listings db p) := by
    unfold read_listings_handler classAttr
    by_cases hk : p.sort_by ∈ knownFields
    · rw [if_pos hk]
    · rw [if_neg hk, if_neg hs]
  have h0 : read_listings db p
      = ((processedListings db p).drop
          ((p.page - 1) * p.limit)).take p.limit := by
    unfold read_listings processedListings
    rw [filters_conj]
  have harith : (p.page - 1) * p.limit + p.limit = p.page * p.limit := by
    conv_rhs => rw [← Nat.sub_add_cancel hp]
    rw [Nat.add_mul, Nat.one_mul]
  have hpf : passesFilters { p with page := p.page + 1 } = passesFilters p :=
    rfl
  have hpage : read_listings db { p with page := p.page + 1 }
      = ((processedListings db p).drop (p.page * p.limit)).take p.limit := by
    unfold read_listings processedListings
    rw [filters_conj, hpf]
    simp [Nat.add_sub_cancel]
  refine ⟨hok, h0, ?_, ?_⟩
  · rw [h0]
    exact List.length_take_le _ _
  · rw [h0, hpage, two_mul, List.take_add]
    congr 1
    rw [List.drop_drop, harith]

/-- Concrete query exercising all three filters, for the C5 witness. -/
def pagedQuery : QueryParams :=
  { page := 1, limit := 2, neighbourhood := some "Centro",
    price_lte := some 100, search := some "historic", sort_by := "price",
    order := "asc" }

/-- Witness for the amended C5 on a one-record dataset at page 1,
limit 2. -/
theorem read_listings_pagination_spec_witness :
    (1 ≤ pagedQuery.page ∧ 1 ≤ pagedQuery.limit ∧ pagedQuery.limit ≤ 100
      ∧ pagedQuery.sort_by ∉ listingNonColumnAttrs)
      ∧ (read_listings_handler listingNonColumnAttrs [sampleRecord]
            pagedQuery
          = Except.ok (read_listings [sampleRecord] pagedQuery)
        ∧ read_listings [sampleRecord] pagedQuery
          = ((processedListings [sampleRecord] pagedQuery).drop
              ((pagedQuery.page - 1) * pagedQuery.limit)).take pagedQuery.limit
        ∧ (read_listings [sampleRecord] pagedQuery).length ≤ pagedQuery.limit
        ∧ read_listings [sampleRecord] pagedQuery
            ++ read_listings [sampleRecord]
                { pagedQuery with page := pagedQuery.page + 1 }
          = ((processedListings [sampleRecord] pagedQuery).drop
              ((pagedQuery.page - 1) * pagedQuery.limit)).take
              (2 * pagedQuery.limit)) :=
  ⟨by decide,
   read_listings_pagination_spec listingNonColumnAttrs [sampleRecord]
     pagedQuery (by decide) (by decide) (by decide) (by decide)⟩

/-! ## C6 — the search filter versus substring containment -/

theorem mem_suffixesList :
    ∀ (s t : List Char), (t ∈ suffixesList s ↔ t <:+ s)
  | [], t => by
    simp [suffixesList]
  | c :: s, t => by
    simp only [suffixesList, List.mem_cons, mem_suffixesList s t,
      List.suffix_cons_iff]

theorem suffixesAny_iff (pred : List Char → Bool) (s : List Char) :
    (suffixesList s).any pred = true ↔ ∃ t, t <:+ s ∧ pred t = true := by
  rw [List.any_eq_true]
  constructor
  · rintro ⟨t, ht, hp⟩
    exact ⟨t, (mem_suffixesList s t).mp ht, hp⟩
  · rintro ⟨t, ht, hp⟩
    exact ⟨t, (mem_suffixesList s t).mpr ht, hp⟩

theorem isPrefChars_iff : ∀ t s : List Char, (isPrefChars t s = true ↔ t <+: s)
  | [], s => by
    simpa [isPrefChars] using List.nil_prefix
  | c :: t, [] => by
    simp [isPrefChars]
  | c :: t, d :: s => by
    simp only [isPrefChars, Bool.and_eq_true, beq_iff_eq, isPrefChars_iff t s,
      List.cons_prefix_cons]
    constructor
    · rintro ⟨h1, h2⟩; exact ⟨h1.symm, h2⟩
    · rintro ⟨h1, h2⟩; exact ⟨h1.symm, h2⟩

/-- `containsCi` holds exactly when the lowered needle occurs inside
the lowered haystack. -/
theorem containsCi_iff (hay needle : String) :
    containsCi hay needle = true
      ↔ (lowerStr needle).data <:+: (lowerStr hay).data := by
  unfold containsCi
  rw [suffixesAny_iff]
  constructor
  · rintro ⟨u, hu, hm⟩
    exact List.infix_iff_prefix_suffix.mpr
      ⟨u, (isPrefChars_iff _ u).mp hm, hu⟩
  · intro h
    rcases List.infix_iff_prefix_suffix.mp h with ⟨u, h1, h2⟩
    exact ⟨u, h2, (isPrefChars_iff _ u).mpr h1⟩

theorem likeMatch_pct_head (ps s : List Char) :
    likeMatch ('%' :: ps) s = (suffixesList s).any (fun t => likeMatch ps t) := by
  rw [likeMatch]

theorem likeMatch_cons_lit (c : Char) (hc1 : ¬ c = '%') (hc2 : ¬ c = '_')
    (hc3 : ¬ c = '\\') (ps s : List Char) :
    likeMatch (c :: ps) s
      = match s with
        | [] => false
        | d :: s2 => d == c && likeMatch ps s2 := by
  rw [likeMatch.eq_def]
  split <;> first | rfl | simp_all

theorem likeMatch_lit_pct (t : List Char)
    (ht : ∀ c ∈ t, c ≠ '%' ∧ c ≠ '_' ∧ c ≠ '\\') :
    ∀ s : List Char, (likeMatch (t ++ ['%']) s = true ↔ t <+: s) := by
  induction t with
  | nil =>
    intro s
    constructor
    · intro _
      exact List.nil_prefix
    · intro _
      show likeMatch ('%' :: []) s = true
      rw [likeMatch_pct_head]
      exact (suffixesAny_iff _ s).mpr ⟨[], List.nil_suffix, rfl⟩
  | cons c t ih =>
    intro s
    have hc := ht c (List.mem_cons_self c t)
    have ht' : ∀ x ∈ t, x ≠ '%' ∧ x ≠ '_' ∧ x ≠ '\\' :=
      fun x hx => ht x (List.mem_cons_of_mem c hx)
    rw [List.cons_append,
      likeMatch_cons_lit c hc.1 hc.2.1 hc.2.2 (t ++ ['%']) s]
    cases s with
    | nil =>
      constructor
      · intro h
        have h2 : (false : Bool) = true := h
        exact Bool.noConfusion h2
      · intro h
        exact absurd (List.prefix_nil.mp h) (List.cons_ne_nil c t)
    | cons d s2 =>
      simp only [Bool.and_eq_true, beq_iff_eq, ih ht' s2,
        List.cons_prefix_cons]
      constructor
      · rintro ⟨h1, h2⟩; exact ⟨h1.symm, h2⟩
      · rintro ⟨h1, h2⟩; exact ⟨h1.symm, h2⟩

/-- A `LIKE` pattern `%t%` whose core `t` is metacharacter-free matches
exactly the inputs containing `t`. -/
theorem likeMatch_pct_lit_pct (t : List Char)
    (ht : ∀ c ∈ t, c ≠ '%' ∧ c ≠ '_' ∧ c ≠ '\\') (s : List Char) :
    likeMatch ('%' :: (t ++ ['%'])) s = true ↔ t <:+: s := by
  rw [likeMatch_pct_head, suffixesAny_iff]
  constructor
  · rintro ⟨u, hu, hm⟩
    exact List.infix_iff_prefix_suffix.mpr
      ⟨u, (likeMatch_lit_pct t ht u).mp hm, hu⟩
  · intro hinf
    rcases List.infix_iff_prefix_suffix.mp hinf with ⟨u, h1, h2⟩
    exact ⟨u, h2, (likeMatch_lit_pct t ht u).mpr h1⟩

theorem lowerChar_notWild (c : Char)
    (h : c ≠ '%' ∧ c ≠ '_' ∧ c ≠ '\\') :
    lowerChar c ≠ '%' ∧ lowerChar c ≠ '_' ∧ lowerChar c ≠ '\\' := by
  rw [lowerChar.eq_def]
  split <;> first | exact (by decide) | exact h

theorem wildcardFree_lower (s : String) (hs : wildcardFree s) :
    ∀ c ∈ (lowerStr s).data, c ≠ '%' ∧ c ≠ '_' ∧ c ≠ '\\' := by
  intro c hc
  simp only [lowerStr, List.mem_map] at hc
  rcases hc with ⟨c0, hc0, rfl⟩
  exact lowerChar_notWild c0 (hs c0 hc0)

theorem ilike_eq_containsCi (v s : String) (hs : wildcardFree s) :
    ilike v ("%" ++ s ++ "%") = containsCi v s := by
  have hpc : ("%" : String).data = ['%'] := rfl
  have hlc : lowerChar '%' = '%' := by decide
  have hdata : (lowerStr ("%" ++ s ++ "%")).data
      = '%' :: ((lowerStr s).data ++ ['%']) := by
    simp [lowerStr, hpc, hlc]
  apply Bool.coe_iff_coe.mp
  unfold ilike
  rw [hdata, likeMatch_pct_lit_pct _ (wildcardFree_lower s hs),
    containsCi_iff]

/-- A record whose name contains no `LIKE` metacharacter, for the C6
counterexample. -/
def plainRecord : ListingRecord :=
  { sampleRecord with name := "plain flat", neighbourhood := none }

/-- GET /listings request searching for a literal percent sign. -/
def wildcardQuery : QueryParams :=
  { page := 1, limit := 20, neighbourhood := none, price_lte := none,
    search := some "%", sort_by := "price", order := "asc" }

/-- C6 counterexample: with `search = "%"`, the handler returns a
record although neither its name nor its neighbourhood contains the
search text — the interpolated `f"%{...}%"` pattern is not escaped, so
`%` acts as a `LIKE` wildcard rather than a literal character. -/
theorem search_wildcard_not_substring :
    read_listings [plainRecord] wildcardQuery = [plainRecord]
      ∧ containsCi plainRecord.name "%" = false
      ∧ plainRecord.neighbourhood = none := by decide

/-- C6 amended: for every search text free of the `LIKE`
metacharacters `%`, `_` and `\`, the search stage of GET /listings
keeps exactly the records whose name OR neighbourhood (when present)
contains the text case-insensitively as an unanchored substring, and no
others. -/
theorem search_filter_substring_amended (db : List ListingRecord)
    (p : QueryParams) (s : String) (hps : p.search = some s)
    (hs : wildcardFree s) :
    applySearch p.search db
      = db.filter (fun r =>
          containsCi r.name s ||
            (match r.neighbourhood with
             | some nb => containsCi nb s
             | none => false)) := by
  rw [hps]
  by_cases hq : s = ""
  · subst hq
    have hall : ∀ r : ListingRecord,
        (containsCi r.name "" ||
          (match r.neighbourhood with
           | some nb => containsCi nb ""
           | none => false)) = true := by
      intro r
      have hc : containsCi r.name "" = true :=
        (suffixesAny_iff _ _).mpr
          ⟨(lowerStr r.name).data, List.suffix_rfl, rfl⟩
      rw [hc, Bool.true_or]
    rw [show applySearch (some "") db = db from rfl]
    have hft : db.filter (fun r =>
        containsCi r.name "" ||
          (match r.neighbourhood with
           | some nb => containsCi nb ""
           | none => false)) = db := by
      rw [List.filter_congr (fun r _ => hall r), List.filter_true]
    rw [hft]
  · rw [show applySearch (some s) db = db.filter (searchPred s) from by
      simp [applySearch, hq]]
    apply List.filter_congr
    intro r _
    unfold searchPred
    rw [ilike_eq_containsCi r.name s hs]
    cases hnb : r.neighbourhood with
    | none => rfl
    | some nb =>
      have h2 := ilike_eq_containsCi nb s hs
      simp only [h2]

/-- GET /listings request with a plain search text, for the C6
witness. -/
def plainSearchQuery : QueryParams :=
  { page := 1, limit := 20, neighbourhood := none, price_lte := none,
    search := some "his", sort_by := "price", order := "asc" }

/-- Witness for the amended C6 at `search = "his"`. -/
theorem search_filter_substring_amended_witness :
    (plainSearchQuery.search = some "his" ∧ wildcardFree "his")
      ∧ applySearch plainSearchQuery.search [sampleRecord]
        = [sampleRecord].filter (fun r =>
            containsCi r.name "his" ||
              (match r.neighbourhood with
               | some nb => containsCi nb "his"
               | none => false)) :=
  ⟨⟨rfl, by decide⟩,
   search_filter_substring_amended [sampleRecord] plainSearchQuery
     "his" rfl (by decide)⟩

/-! ## C3 — the last_review normalization -/

/-- C3: the normalization of `last_review`: absent, empty and the
literal sentinel `0000-00-00` normalize to the absent date; an
already-structured calendar date is returned unchanged; any other
value is treated as text and parsed with `%Y-%m-%d` first and
`%m/%d/%Y` second, the first successful parse winning; when neither
format parses, validation fails with a format error naming the
offending text. -/
theorem parse_last_review_spec :
    parse_last_review DateInput.none = Except.ok none
      ∧ parse_last_review (DateInput.str "") = Except.ok none
      ∧ parse_last_review (DateInput.str "0000-00-00") = Except.ok none
      ∧ (∀ d : Date, d.Valid →
          parse_last_review (DateInput.date d) = Except.ok (some d))
      ∧ (∀ s : String, s ≠ "" → s ≠ "0000-00-00" →
          (∀ d, parseYMD s = some d →
            parse_last_review (DateInput.str s) = Except.ok (some d))
          ∧ (∀ d, parseYMD s = none → parseMDY s = some d →
            parse_last_review (DateInput.str s) = Except.ok (some d))
          ∧ (parseYMD s = none → parseMDY s = none →
            parse_last_review (DateInput.str s)
              = Except.error ("Invalid date format: " ++ s))) := by
  refine ⟨rfl, rfl, rfl, ?_, ?_⟩
  · intro d hd
    simp only [parse_last_review]
    rw [if_neg]
    intro h0
    have h1 := hd.1
    omega
  · intro s h1 h2
    have hcond : ¬ (s = "" ∨ s = "0000-00-00") := fun h => h.elim h1 h2
    refine ⟨?_, ?_, ?_⟩
    · intro d hymd
      simp only [parse_last_review]
      rw [if_neg hcond]
      simp only [hymd]
    · intro d hymd hmdy
      simp only [parse_last_review]
      rw [if_neg hcond]
      simp only [hymd, hmdy]
    · intro hymd hmdy
      simp only [parse_last_review]
      rw [if_neg hcond]
      simp only [hymd, hmdy]

/-- Witness for C3: a structured date, a `MM/DD/YYYY` text on which the
first format fails, and an unparseable text. -/
theorem parse_last_review_spec_witness :
    (Date.Valid ⟨2023, 5, 1⟩
      ∧ parse_last_review (DateInput.date ⟨2023, 5, 1⟩)
        = Except.ok (some ⟨2023, 5, 1⟩))
      ∧ ("03/15/2023" ≠ "" ∧ "03/15/2023" ≠ "0000-00-00"
        ∧ parseYMD "03/15/2023" = none
        ∧ parseMDY "03/15/2023" = some ⟨2023, 3, 15⟩
        ∧ parse_last_review (DateInput.str "03/15/2023")
          = Except.ok (some ⟨2023, 3, 15⟩))
      ∧ ("not-a-date" ≠ "" ∧ "not-a-date" ≠ "0000-00-00"
        ∧ parseYMD "not-a-date" = none ∧ parseMDY "not-a-date" = none
        ∧ parse_last_review (DateInput.str "not-a-date")
          = Except.error ("Invalid date format: " ++ "not-a-date")) :=
  ⟨⟨by decide, parse_last_review_spec.2.2.2.1 ⟨2023, 5, 1⟩ (by decide)⟩,
   ⟨by decide, by decide, by decide, by decide,
    (parse_last_review_spec.2.2.2.2 "03/15/2023" (by decide)
        (by decide)).2.1 ⟨2023, 3, 15⟩ (by decide) (by decide)⟩,
   ⟨by decide, by decide, by decide, by decide,
    (parse_last_review_spec.2.2.2.2 "not-a-date" (by decide)
        (by decide)).2.2 (by decide) (by decide)⟩⟩

/-! ## C4 — invalid last_review text rejects the insert -/

/-- C4: a `last_review` text matching neither accepted format makes
POST /listings fail with a 400 carrying the format error that names
the offending text, and the store is returned unchanged — validation
happens before any store interaction, so nothing is inserted. -/
theorem invalid_last_review_no_insert (st : Store) (raw : RawListing)
    (s : String) (hlr : raw.last_review = DateInput.str s)
    (h1 : s ≠ "") (h2 : s ≠ "0000-00-00")
    (hp1 : parseYMD s = none) (hp2 : parseMDY s = none) :
    ∃ errs, post_listing st raw = (PostResult.badRequest errs, st)
      ∧ ("last_review: " ++ ("Invalid date format: " ++ s)) ∈ errs := by
  have hplr : parse_last_review raw.last_review
      = Except.error ("Invalid date format: " ++ s) := by
    rw [hlr]
    simp only [parse_last_review]
    rw [if_neg (fun h => h.elim h1 h2)]
    simp only [hp1, hp2]
  have hmem : ("last_review: " ++ ("Invalid date format: " ++ s))
      ∈ validationErrors raw := by
    unfold validationErrors
    rw [hplr]
    simp [List.mem_append]
  have hne : validationErrors raw ≠ [] := by
    intro h0
    rw [h0] at hmem
    exact List.not_mem_nil _ hmem
  refine ⟨validationErrors raw, ?_, hmem⟩
  unfold post_listing validateListing
  rw [if_neg hne]

/-- The empty Listing Store with auto-increment counter at 1. -/
def emptyStore : Store := { records := [], nextId := 1 }

/-- A request body carrying an unparseable `last_review`, all required
fields present. -/
def rawInvalidDate : RawListing :=
  { id := some 7, name := some "Cozy loft", host_id := some 3,
    host_name := some "Ana", neighbourhood_group := none,
    neighbourhood := none, latitude := none, longitude := none,
    room_type := none, price := some 80, minimum_nights := none,
    number_of_reviews := none, last_review := DateInput.str "not-a-date",
    reviews_per_month := none, calculated_host_listings_count := none,
    availability_365 := none, number_of_reviews_ltm := none,
    license := none }

/-- Witness for C4 at `last_review = "not-a-date"` on the empty store. -/
theorem invalid_last_review_no_insert_witness :
    (rawInvalidDate.last_review = DateInput.str "not-a-date"
      ∧ "not-a-date" ≠ "" ∧ "not-a-date" ≠ "0000-00-00"
      ∧ parseYMD "not-a-date" = none ∧ parseMDY "not-a-date" = none)
      ∧ ∃ errs,
          post_listing emptyStore rawInvalidDate
            = (PostResult.badRequest errs, emptyStore)
          ∧ ("last_review: " ++ ("Invalid date format: " ++ "not-a-date"))
            ∈ errs :=
  ⟨⟨rfl, by decide, by decide, by decide, by decide⟩,
   invalid_last_review_no_insert emptyStore rawInvalidDate "not-a-date"
     rfl (by decide) (by decide) (by decide) (by decide)⟩

/-! ## C2 — POST /listings and the `id` field

`ListingSchema` declares `id: int` without a default, so pydantic
requires the field in the request body even though `create_listing`
then discards its value (`exclude={"id"}`).  A body without `id` is
therefore rejected at the boundary with 400, contradicting the claim
that such a body is accepted; with `id` present (any value), the
insert succeeds and the stored record carries the store-assigned
fresh id. -/

/-- A fully valid request body including the (ignored) `id` field. -/
def validRawBody : RawListing :=
  { rawInvalidDate with last_review := DateInput.str "2023-03-15" }

/-- The same body with the `id` field absent. -/
def rawNoId : RawListing := { validRawBody with id := none }

/-- C2 counterexample: a ListingRecord body without `id` is not
accepted — POST /listings answers 400 `field required` for `id` and
performs no insertion. -/
theorem post_missing_id_rejected :
    rawNoId.id = none
      ∧ post_listing emptyStore rawNoId
        = (PostResult.badRequest ["id: field required"], emptyStore) := by
  constructor
  · rfl
  · rfl

/-- C2 amended: POST /listings requires an `id` field in the body (its
value is ignored); on a body that validates, it returns 201 with the
record appended to the store, carrying a newly assigned `id` distinct
from every stored id. -/
theorem post_with_id_assigns_unique_id (st : Store) (raw : RawListing)
    (rec : ListingRecord) (hval : validateListing raw = Except.ok rec)
    (hfresh : ∀ r ∈ st.records, r.id < st.nextId) :
    post_listing st raw
        = (PostResult.created { rec with id := st.nextId },
           { records := st.records ++ [{ rec with id := st.nextId }],
             nextId := st.nextId + 1 })
      ∧ (∀ r ∈ st.records, r.id ≠ st.nextId) := by
  constructor
  · unfold post_listing
    rw [hval]
    rfl
  · intro r hr
    exact Int.ne_of_lt (hfresh r hr)

/-- Witness for the amended C2 on the empty store. -/
theorem post_with_id_assigns_unique_id_witness :
    (validateListing validRawBody = Except.ok (buildRecord validRawBody)
      ∧ ∀ r ∈ emptyStore.records, r.id < emptyStore.nextId)
      ∧ post_listing emptyStore validRawBody
          = (PostResult.created
               { buildRecord validRawBody with id := emptyStore.nextId },
             { records := emptyStore.records
                 ++ [{ buildRecord validRawBody with id := emptyStore.nextId }],
               nextId := emptyStore.nextId + 1 })
        ∧ (∀ r ∈ emptyStore.records, r.id ≠ emptyStore.nextId) :=
  ⟨⟨rfl, by decide⟩,
   post_with_id_assigns_unique_id emptyStore validRawBody
     (buildRecord validRawBody) rfl (by decide)⟩

/-! ## C8 — round-trip of last_review through insertion -/

theorem validationErrors_empty (raw : RawListing)
    (hid : raw.id.isSome = true) (hn : raw.name.isSome = true)
    (hh : raw.host_id.isSome = true) (hhn : raw.host_name.isSome = true)
    (d : Option Date)
    (hok : parse_last_review raw.last_review = Except.ok d) :
    validationErrors raw = [] := by
  unfold validationErrors requiredErr
  rw [hid, hn, hh, hhn, hok]
  simp

theorem post_listing_created (st : Store) (raw : RawListing)
    (h : validationErrors raw = []) :
    post_listing st raw
      = (PostResult.created { buildRecord raw with id := st.nextId },
         { records := st.records ++ [{ buildRecord raw with id := st.nextId }],
           nextId := st.nextId + 1 }) := by
  unfold post_listing validateListing
  rw [if_pos h]
  rfl

/-- C8: for any body with the required fields present, inserting with
`last_review = "0000-00-00"` stores the absent date, and inserting
with `"03/15/2023"` stores exactly the same date as inserting with
`"2023-03-15"`, namely March 15 2023. -/
theorem last_review_roundtrip (st1 st2 st3 : Store) (raw : RawListing)
    (hid : raw.id.isSome = true) (hn : raw.name.isSome = true)
    (hh : raw.host_id.isSome = true) (hhn : raw.host_name.isSome = true) :
    (∃ stored st',
      post_listing st1 { raw with last_review := DateInput.str "0000-00-00" }
          = (PostResult.created stored, st')
        ∧ stored.last_review = none)
      ∧ (∃ r1 r2 st1' st2',
          post_listing st2 { raw with last_review := DateInput.str "03/15/2023" }
              = (PostResult.created r1, st1')
            ∧ post_listing st3
                { raw with last_review := DateInput.str "2023-03-15" }
              = (PostResult.created r2, st2')
            ∧ r1.last_review = r2.last_review
            ∧ r1.last_review = some ⟨2023, 3, 15⟩) := by
  constructor
  · refine ⟨_, _,
      post_listing_created st1 _
        (validationErrors_empty _ hid hn hh hhn none rfl), rfl⟩
  · refine ⟨_, _, _, _,
      post_listing_created st2 _
        (validationErrors_empty _ hid hn hh hhn (some ⟨2023, 3, 15⟩) rfl),
      post_listing_created st3 _
        (validationErrors_empty _ hid hn hh hhn (some ⟨2023, 3, 15⟩) rfl),
      rfl, rfl⟩

/-- Witness for C8 using the concrete valid body on empty stores. -/
theorem last_review_roundtrip_witness :
    (validRawBody.id.isSome = true ∧ validRawBody.name.isSome = true
      ∧ validRawBody.host_id.isSome = true
      ∧ validRawBody.host_name.isSome = true)
      ∧ ((∃ stored st',
          post_listing emptyStore
              { validRawBody with last_review := DateInput.str "0000-00-00" }
            = (PostResult.created stored, st')
          ∧ stored.last_review = none)
        ∧ (∃ r1 r2 st1' st2',
            post_listing emptyStore
                { validRawBody with last_review := DateInput.str "03/15/2023" }
              = (PostResult.created r1, st1')
            ∧ post_listing emptyStore
                { validRawBody with last_review := DateInput.str "2023-03-15" }
              = (PostResult.created r2, st2')
            ∧ r1.last_review = r2.last_review
            ∧ r1.last_review = some ⟨2023, 3, 15⟩)) :=
  ⟨⟨rfl, rfl, rfl, rfl⟩,
   last_review_roundtrip emptyStore emptyStore emptyStore validRawBody
     rfl rfl rfl rfl⟩
